import Mathlib

/-!
Shallow embedding of `rain-alert.py`: a single-shot script that reads three
secrets from the environment, fetches an hourly weather forecast, decides a
rain/no-rain message from the one or two leading hourly entries, resolves a
weather icon through a file cache, and posts one push notification.

JSON values are embedded as structures with `Option` fields (a `none` field is
an absent key).  Python runtime failures (IndexError on `[0]`, KeyError on
`weather['description']`, `raise_for_status`, an unhandled `requests`
transport exception) are explicit error outcomes.  The outside world — which
HTTP responses each `requests` call would return, which files the cache
directory holds, which environment variables are set, the minute of the start
time — is packaged as the run's input, and the run's observable behaviour
(outbound HTTP calls in order, error log lines, files written, exit outcome)
is its result.
-/

namespace RainAlert

/-- Equality of `Except` values is decidable when it is on both sides. -/
instance {α β : Type} [DecidableEq α] [DecidableEq β] :
    DecidableEq (Except α β) := fun a b =>
  match a, b with
  | .ok x, .ok y => if h : x = y then .isTrue (by rw [h]) else .isFalse (by simp [h])
  | .error x, .error y => if h : x = y then .isTrue (by rw [h]) else .isFalse (by simp [h])
  | .ok _, .error _ => .isFalse (by simp)
  | .error _, .ok _ => .isFalse (by simp)

/-- One element of an hourly entry's `weather` array: `main`, `description`
and `icon` keys, each possibly absent. -/
structure Weather where
  main : Option String
  description : Option String
  icon : Option String
  deriving DecidableEq

/-- One entry of the forecast's `hourly` array; the `weather` key is possibly
absent, and when present maps to a (possibly empty) array. -/
structure HourEntry where
  weather : Option (List Weather)
  deriving DecidableEq

/-- The empty dict `{}` used as the default first weather record. -/
def emptyWeather : Weather := ⟨none, none, none⟩

/-- `hour.get("weather", [{}])[0]`: default `[{}]` applies only when the
`weather` key is absent; indexing `[0]` fails (`none`) on an empty array. -/
def firstWeather (h : HourEntry) : Option Weather :=
  match h.weather with
  | none => some emptyWeather
  | some ws => ws.head?

/-- `pat` is a leading segment of `s` (character-by-character). -/
def charsStartWith : List Char → List Char → Bool
  | [], _ => true
  | _ :: _, [] => false
  | a :: pa, b :: sb => a == b && charsStartWith pa sb

/-- `pat` occurs contiguously somewhere in `s` (Python's `pat in s`). -/
def charsHasSub (pat : List Char) : List Char → Bool
  | [] => pat.isEmpty
  | b :: sb => charsStartWith pat (b :: sb) || charsHasSub pat sb

/-- ASCII lowercase of one character (Python `.lower()` restricted to the
ASCII letters actually occurring in the provider's category labels). -/
def lowerChar (c : Char) : Char :=
  if 65 ≤ c.toNat ∧ c.toNat ≤ 90 then Char.ofNat (c.toNat + 32) else c

/-- `"rain" in s.lower()`. -/
def containsRain (s : String) : Bool :=
  charsHasSub "rain".data (s.data.map lowerChar)

/-- Python error kinds raised while computing the message. -/
inductive ScanErr where
  | indexError
  | keyError
  deriving DecidableEq

/-- The `for hour in next_hour` loop body, lines 66–72: returns
`some (message, icon)` if the loop `break`s, `none` if it runs to completion,
or a raised error (IndexError from `[0]` on an empty `weather` array,
KeyError from `weather['description']`). -/
def scanHours : List HourEntry → Except ScanErr (Option (String × Option String))
  | [] => .ok none
  | h :: rest =>
    match firstWeather h with
    | none => .error .indexError
    | some w =>
      if containsRain (w.main.getD "") then
        match w.description with
        | none => .error .keyError
        | some d => .ok (some ("Rain alert: " ++ d ++ " in the next hour", w.icon))
      else scanHours rest

/-- Lines 66–75: the loop with its `else` clause.  On no `break`, the message
is the static no-rain string and the icon comes from `next_hour[0]` (an
IndexError when `next_hour` is empty). -/
def computeMessage (nextHour : List HourEntry) :
    Except ScanErr (String × Option String) :=
  match scanHours nextHour with
  | .error e => .error e
  | .ok (some mi) => .ok mi
  | .ok none =>
    match nextHour with
    | [] => .error .indexError
    | h :: _ =>
      match firstWeather h with
      | none => .error .indexError
      | some w => .ok ("No rain in the next hour", w.icon)

/-- Line 62: `2 if datetime.now().minute > 10 else 1`. -/
def forecastRange (minute : Nat) : Nat :=
  if minute > 10 then 2 else 1

/-- Line 63: the selected leading hourly entries. -/
def selected (hourly : List HourEntry) (minute : Nat) : List HourEntry :=
  hourly.take (forecastRange minute)

/-- Python `f"{icon}"` where `icon` may be `None`. -/
def pyStr : Option String → String
  | none => "None"
  | some s => s

/-- The three environment variables read on lines 34–47; `none` is an unset
variable. -/
structure Env where
  openweather_api_key : Option String
  pushover_api_key : Option String
  pushover_user_key : Option String
  deriving DecidableEq

/-- Python truthiness of `os.getenv(...)`: falsy when unset or empty. -/
def truthy : Option String → Bool
  | none => false
  | some s => !s.isEmpty

/-- Lines 34–47 as a whole: `some msg` is the error line logged by the first
failing check (followed by `sys.exit(1)`), `none` means all secrets present. -/
def secretsCheck (e : Env) : Option String :=
  if !truthy e.openweather_api_key then some "OPENWEATHERMAP_API_KEY not found"
  else if !truthy e.pushover_api_key then some "PUSHOVER_API_KEY not found"
  else if !truthy e.pushover_user_key then some "PUSHOVER_USER_KEY not found"
  else none

/-- The body `response.json()` of a successful forecast GET (only the
`hourly` array is consulted by the script). -/
structure ForecastBody where
  hourly : List HourEntry
  deriving DecidableEq

/-- What the outside world answers to one `requests` call: a raised
transport exception, or an HTTP response with a status code and a body. -/
inductive Fetch (β : Type) where
  | netError : Fetch β
  | response (status : Nat) (body : β) : Fetch β
  deriving DecidableEq

/-- `response.raise_for_status()` raises for a 4xx/5xx status; a transport
exception is likewise fatal. -/
def fetchFails {β : Type} : Fetch β → Bool
  | .netError => true
  | .response st _ => 400 ≤ st

/-- One outbound HTTP call made by the script, with the data the claims
observe. -/
inductive HttpCall where
  | getForecast
  | getIcon (iconId : String)
  | postNotify (message : String) (hasAttachment : Bool)
  deriving DecidableEq

/-- Whether a call is the notification POST. -/
def isPost : HttpCall → Bool
  | .postNotify _ _ => true
  | _ => false

/-- How a run ends: normal completion, `sys.exit(code)`, or an uncaught
Python exception (HTTPError / transport error, IndexError, KeyError). -/
inductive Outcome where
  | success
  | exitCode (code : Nat)
  | httpError
  | indexError
  | keyError
  deriving DecidableEq

/-- The uncaught exception corresponding to a message-computation error. -/
def errOutcome : ScanErr → Outcome
  | .indexError => .indexError
  | .keyError => .keyError

/-- Everything the outside world contributes to one run. -/
structure RunInput where
  env : Env
  minute : Nat
  cacheDirExists : Bool
  cacheFiles : List String
  forecastFetch : Fetch ForecastBody
  iconFetch : Fetch String
  notifyFetch : Fetch Unit
  deriving DecidableEq

/-- The observable behaviour of one run. -/
structure RunResult where
  calls : List HttpCall
  outcome : Outcome
  errorLogs : List String
  dirCreated : Bool
  dirExistsAfter : Bool
  filesWritten : List String
  deriving DecidableEq

/-- Build a result; lines 30–31 run unconditionally first, so the cache
directory is created exactly when it was missing and exists afterwards in
every run. -/
def mkRes (inp : RunInput) (calls : List HttpCall) (outcome : Outcome)
    (logs : List String) (written : List String) : RunResult :=
  { calls := calls, outcome := outcome, errorLogs := logs,
    dirCreated := !inp.cacheDirExists, dirExistsAfter := true,
    filesWritten := written }

/-- Lines 92–107: the notification POST and its `raise_for_status`. -/
def notifyStep (inp : RunInput) (calls : List HttpCall) (logs : List String)
    (written : List String) (message : String) (iconPath : Option String) :
    RunResult :=
  let post := HttpCall.postNotify message iconPath.isSome
  match inp.notifyFetch with
  | .netError => mkRes inp (calls ++ [post]) .httpError logs written
  | .response st _ =>
    if 400 ≤ st then mkRes inp (calls ++ [post]) .httpError logs written
    else mkRes inp (calls ++ [post]) .success logs written

/-- Lines 79–107: resolve the icon through the cache (fetching on a miss;
only a non-200 status is handled, a transport exception propagates) and then
send the notification. -/
def iconAndNotify (inp : RunInput) (message : String) (icon : Option String) :
    RunResult :=
  let iconFile := pyStr icon ++ ".png"
  if iconFile ∈ inp.cacheFiles then
    notifyStep inp [.getForecast] [] [] message (some iconFile)
  else
    match inp.iconFetch with
    | .netError => mkRes inp [.getForecast, .getIcon (pyStr icon)] .httpError [] []
    | .response st content =>
      if st ≠ 200 then
        notifyStep inp [.getForecast, .getIcon (pyStr icon)]
          ["Failed to download icon: " ++ content] [] message none
      else
        notifyStep inp [.getForecast, .getIcon (pyStr icon)] [] [iconFile]
          message (some iconFile)

/-- The whole script, lines 30–107, as a function of the run's input. -/
def run (inp : RunInput) : RunResult :=
  match secretsCheck inp.env with
  | some msg => mkRes inp [] (.exitCode 1) [msg] []
  | none =>
    match inp.forecastFetch with
    | .netError => mkRes inp [.getForecast] .httpError [] []
    | .response st body =>
      if 400 ≤ st then mkRes inp [.getForecast] .httpError [] []
      else
        match computeMessage (selected body.hourly inp.minute) with
        | .error e => mkRes inp [.getForecast] (errOutcome e) [] []
        | .ok (message, icon) => iconAndNotify inp message icon

/-- The message/icon the run settles on when it gets past the forecast fetch
and the scan without an exception (`none` otherwise); mirrors the front of
`run`. -/
def messageStep (inp : RunInput) : Option (String × Option String) :=
  match secretsCheck inp.env with
  | some _ => none
  | none =>
    match inp.forecastFetch with
    | .netError => none
    | .response st body =>
      if 400 ≤ st then none
      else
        match computeMessage (selected body.hourly inp.minute) with
        | .error _ => none
        | .ok mi => some mi

/-- The cache directory's contents after the run. -/
def cacheAfter (inp : RunInput) : List String :=
  inp.cacheFiles ++ (run inp).filesWritten

/-- `inp.forecastFetch` survived `raise_for_status`: the body the script
parses, `none` when the forecast fetch is fatal. -/
def forecastBodyOf (inp : RunInput) : Option ForecastBody :=
  match inp.forecastFetch with
  | .netError => none
  | .response st body => if 400 ≤ st then none else some body

/-- An hourly entry of the shape documented for the provider: a nonempty
`weather` array whose first record has `main`, `description` and `icon`. -/
def wellFormedEntry (h : HourEntry) : Bool :=
  match h.weather with
  | some (w :: _) => w.main.isSome && w.description.isSome && w.icon.isSome
  | _ => false

/-- The loop's rain test for one entry (meaningful when `firstWeather`
succeeds). -/
def entryRainy (h : HourEntry) : Bool :=
  match firstWeather h with
  | none => false
  | some w => containsRain (w.main.getD "")

/-- The `description` of an entry's first weather record. -/
def entryDescription (h : HourEntry) : String :=
  ((firstWeather h).getD emptyWeather).description.getD ""

/-- The `icon` of an entry's first weather record. -/
def entryIcon (h : HourEntry) : Option String :=
  ((firstWeather h).getD emptyWeather).icon

/-- Number of icon GETs for a given icon id among a run's calls. -/
def countIconGets (icId : String) (l : List HttpCall) : Nat :=
  l.count (HttpCall.getIcon icId)

/-! ### Example data used by witnesses and counterexamples -/

/-- A rainy first weather record (the spec's example). -/
def exRainWeather : Weather := ⟨some "Rain", some "light rain", some "10d"⟩

/-- A clear first weather record (the spec's example). -/
def exClearWeather : Weather := ⟨some "Clear", some "clear sky", some "01d"⟩

/-- Hourly entry carrying the rainy record. -/
def exRainEntry : HourEntry := ⟨some [exRainWeather]⟩

/-- Hourly entry carrying the clear record. -/
def exClearEntry : HourEntry := ⟨some [exClearWeather]⟩

/-- An environment with all three secrets present. -/
def exEnv : Env := ⟨some "ow-key", some "po-token", some "po-user"⟩

/-! ### Behaviour of the scan loop -/

/-- On well-formed entries the loop computes exactly the first rainy entry's
alert (via `List.find?`), and completes without a `break` when none is
rainy. -/
lemma scanHours_eq_find (l : List HourEntry)
    (hwf : ∀ h ∈ l, wellFormedEntry h = true) :
    scanHours l = .ok ((l.find? entryRainy).map fun e =>
      ("Rain alert: " ++ entryDescription e ++ " in the next hour", entryIcon e)) := by
  induction l with
  | nil => rfl
  | cons h t ih =>
    have hwfh := hwf h (List.mem_cons_self h t)
    have ihs := ih fun x hx => hwf x (List.mem_cons_of_mem h hx)
    rcases hw : h.weather with _ | ws
    · simp [wellFormedEntry, hw] at hwfh
    · rcases ws with _ | ⟨w, ws⟩
      · simp [wellFormedEntry, hw] at hwfh
      · simp [wellFormedEntry, hw] at hwfh
        obtain ⟨⟨hm, hd⟩, hi⟩ := hwfh
        have hfw : firstWeather h = some w := by simp [firstWeather, hw]
        by_cases hr : containsRain (w.main.getD "") = true
        · obtain ⟨d, hd2⟩ := Option.isSome_iff_exists.mp hd
          have her : entryRainy h = true := by simp [entryRainy, hfw, hr]
          simp [scanHours, hfw, hr, hd2, List.find?, her, entryDescription, entryIcon]
        · have her : entryRainy h = false := by
            simp only [entryRainy, hfw]
            exact Bool.not_eq_true _ ▸ hr
          simp [scanHours, hfw, hr, List.find?, her, ihs]

/-- C1: if some selected leading hourly entry has a category containing
"rain" (case-insensitively), the chosen message is the rain alert built from
the earliest such entry's description, and the chosen icon is that entry's
icon identifier.  "Earliest matching" is `List.find?` over the selected
entries; the entries are assumed to have the documented shape. -/
theorem rain_alert_earliest_wins (hourly : List HourEntry) (minute : Nat)
    (e : HourEntry)
    (hwf : ∀ h ∈ selected hourly minute, wellFormedEntry h = true)
    (hfind : (selected hourly minute).find? entryRainy = some e) :
    computeMessage (selected hourly minute) =
      .ok ("Rain alert: " ++ entryDescription e ++ " in the next hour", entryIcon e) := by
  have h1 := scanHours_eq_find (selected hourly minute) hwf
  rw [hfind] at h1
  unfold computeMessage
  rw [h1]
  rfl

/-- Witness for C1: the spec's own example, one rainy entry at minute 5. -/
theorem rain_alert_earliest_wins_witness :
    computeMessage (selected [exRainEntry] 5) =
      .ok ("Rain alert: light rain in the next hour", some "10d") :=
  rain_alert_earliest_wins [exRainEntry] 5 exRainEntry (by decide) (by decide)

/-- C3: if no selected leading hourly entry has a category containing
"rain", the chosen message is exactly "No rain in the next hour" and the
chosen icon is the first selected entry's icon identifier. -/
theorem no_rain_default_message (hourly : List HourEntry) (minute : Nat)
    (e : HourEntry) (rest : List HourEntry)
    (hsel : selected hourly minute = e :: rest)
    (hwf : ∀ h ∈ selected hourly minute, wellFormedEntry h = true)
    (hnone : (selected hourly minute).find? entryRainy = none) :
    computeMessage (selected hourly minute) =
      .ok ("No rain in the next hour", entryIcon e) := by
  have h1 := scanHours_eq_find (selected hourly minute) hwf
  rw [hnone] at h1
  have hwfe : wellFormedEntry e = true := hwf e (by rw [hsel]; exact List.mem_cons_self e rest)
  unfold computeMessage
  rw [h1, hsel]
  rcases hw : e.weather with _ | ws
  · simp [wellFormedEntry, hw] at hwfe
  · rcases ws with _ | ⟨w, ws⟩
    · simp [wellFormedEntry, hw] at hwfe
    · have hfw : firstWeather e = some w := by simp [firstWeather, hw]
      simp [hfw, entryIcon]

/-- Witness for C3: the spec's own example, one clear entry at minute 5. -/
theorem no_rain_default_message_witness :
    computeMessage (selected [exClearEntry] 5) =
      .ok ("No rain in the next hour", some "01d") :=
  no_rain_default_message [exClearEntry] 5 exClearEntry [] (by decide) (by decide) (by decide)

/-- C4: the number of selected leading hourly entries depends only on the
start minute — 1 when the minute is ≤ 10 and 2 when it is > 10 — provided
the hourly array has at least that many entries. -/
theorem forecast_range_by_minute (hourly : List HourEntry) (minute : Nat)
    (hlen : forecastRange minute ≤ hourly.length) :
    (minute ≤ 10 → (selected hourly minute).length = 1) ∧
    (10 < minute → (selected hourly minute).length = 2) := by
  have hsel : (selected hourly minute).length = forecastRange minute := by
    simp only [selected, List.length_take]
    exact Nat.min_eq_left hlen
  constructor
  · intro h
    have h2 : ¬ (minute > 10) := by omega
    have h3 : forecastRange minute = 1 := by unfold forecastRange; rw [if_neg h2]
    rw [hsel, h3]
  · intro h
    have h3 : forecastRange minute = 2 := by unfold forecastRange; rw [if_pos h]
    rw [hsel, h3]

/-- Witness for C4: a one-entry hourly array at minute 5 selects exactly
one entry. -/
theorem forecast_range_by_minute_witness :
    (selected [exClearEntry] 5).length = 1 :=
  (forecast_range_by_minute [exClearEntry] 5 (by decide)).1 (by decide)

/-! ### Behaviour of the whole run -/

/-- When a secret check fails, the run is the exit-1 result with that
check's log line. -/
lemma run_exit1 (inp : RunInput) (msg : String)
    (h : secretsCheck inp.env = some msg) :
    run inp = mkRes inp [] (.exitCode 1) [msg] [] := by
  unfold run
  rw [h]

/-- An absent secret makes `secretsCheck` fail with one of the three
"not found" log lines. -/
lemma secretsCheck_missing (e : Env)
    (h : e.openweather_api_key = none ∨ e.pushover_api_key = none ∨
         e.pushover_user_key = none) :
    ∃ name, name ∈ ["OPENWEATHERMAP_API_KEY", "PUSHOVER_API_KEY", "PUSHOVER_USER_KEY"] ∧
      secretsCheck e = some (name ++ " not found") := by
  by_cases h1 : truthy e.openweather_api_key
  · by_cases h2 : truthy e.pushover_api_key
    · by_cases h3 : truthy e.pushover_user_key
      · exfalso
        rcases h with h | h | h
        · rw [h] at h1; simp [truthy] at h1
        · rw [h] at h2; simp [truthy] at h2
        · rw [h] at h3; simp [truthy] at h3
      · exact ⟨"PUSHOVER_USER_KEY", by simp,
          by unfold secretsCheck; rw [h1, h2]; simp [h3]⟩
    · exact ⟨"PUSHOVER_API_KEY", by simp,
        by unfold secretsCheck; rw [h1]; simp [h2]⟩
  · exact ⟨"OPENWEATHERMAP_API_KEY", by simp,
      by unfold secretsCheck; simp [h1]⟩

/-- C5: when any of the three required secrets is absent from the
environment, the run exits with status 1, makes zero outbound HTTP calls,
and logs which secret is missing. -/
theorem missing_secret_exit_one (inp : RunInput)
    (h : inp.env.openweather_api_key = none ∨ inp.env.pushover_api_key = none ∨
         inp.env.pushover_user_key = none) :
    (run inp).outcome = .exitCode 1 ∧ (run inp).calls = [] ∧
    ∃ name, name ∈ ["OPENWEATHERMAP_API_KEY", "PUSHOVER_API_KEY", "PUSHOVER_USER_KEY"] ∧
      (run inp).errorLogs = [name ++ " not found"] := by
  obtain ⟨name, hmem, hsc⟩ := secretsCheck_missing inp.env h
  rw [run_exit1 inp _ hsc]
  exact ⟨rfl, rfl, name, hmem, rfl⟩

/-- Witness for C5: a run whose environment lacks the forecast-API key. -/
theorem missing_secret_exit_one_witness :
    (run ⟨⟨none, some "po-token", some "po-user"⟩, 5, true, [],
        .response 200 ⟨[]⟩, .response 200 "png", .response 200 ()⟩).outcome =
      .exitCode 1 ∧
    (run ⟨⟨none, some "po-token", some "po-user"⟩, 5, true, [],
        .response 200 ⟨[]⟩, .response 200 "png", .response 200 ()⟩).calls = [] ∧
    ∃ name, name ∈ ["OPENWEATHERMAP_API_KEY", "PUSHOVER_API_KEY", "PUSHOVER_USER_KEY"] ∧
      (run ⟨⟨none, some "po-token", some "po-user"⟩, 5, true, [],
          .response 200 ⟨[]⟩, .response 200 "png", .response 200 ()⟩).errorLogs =
        [name ++ " not found"] :=
  missing_secret_exit_one _ (Or.inl rfl)

/-- When the run settles on a message and an icon, the rest of the run is
the icon/notification tail. -/
lemma run_reaches_icon (inp : RunInput) (m : String) (ic : Option String)
    (h : messageStep inp = some (m, ic)) : run inp = iconAndNotify inp m ic := by
  unfold messageStep at h
  rcases hsec : secretsCheck inp.env with _ | msg
  · rw [hsec] at h
    rcases hf : inp.forecastFetch with _ | ⟨st, body⟩
    · rw [hf] at h; simp at h
    · rw [hf] at h
      by_cases hst : 400 ≤ st
      · simp [hst] at h
      · simp only [hst, if_false] at h
        rcases hcm : computeMessage (selected body.hourly inp.minute) with e | mi
        · rw [hcm] at h; simp at h
        · rw [hcm] at h
          simp only [Option.some.injEq] at h
          subst h
          simp [run, hsec, hf, hst, hcm]
  · rw [hsec] at h; simp at h

/-- The notification step posts exactly once, with the given message and the
availability of the icon file as attachment flag; it fails exactly when the
POST fails, and it touches nothing else. -/
lemma notifyStep_spec (inp : RunInput) (calls : List HttpCall)
    (logs : List String) (written : List String) (m : String)
    (ip : Option String) :
    (notifyStep inp calls logs written m ip).calls =
      calls ++ [.postNotify m ip.isSome] ∧
    (notifyStep inp calls logs written m ip).outcome =
      (if fetchFails inp.notifyFetch = true then Outcome.httpError else .success) ∧
    (notifyStep inp calls logs written m ip).errorLogs = logs ∧
    (notifyStep inp calls logs written m ip).filesWritten = written ∧
    (notifyStep inp calls logs written m ip).dirCreated = !inp.cacheDirExists ∧
    (notifyStep inp calls logs written m ip).dirExistsAfter = true := by
  rcases hn : inp.notifyFetch with _ | ⟨st, u⟩
  · simp [notifyStep, mkRes, fetchFails, hn]
  · by_cases hst : 400 ≤ st
    · simp [notifyStep, mkRes, fetchFails, hn, hst]
    · simp [notifyStep, mkRes, fetchFails, hn, hst]

/-- The four ways the icon/notification tail can go: cache hit, transport
exception on the icon GET, non-200 icon response, 200 icon response. -/
lemma iconAndNotify_cases (inp : RunInput) (m : String) (ic : Option String) :
    (pyStr ic ++ ".png" ∈ inp.cacheFiles ∧
      iconAndNotify inp m ic =
        notifyStep inp [.getForecast] [] [] m (some (pyStr ic ++ ".png"))) ∨
    (pyStr ic ++ ".png" ∉ inp.cacheFiles ∧ inp.iconFetch = .netError ∧
      iconAndNotify inp m ic =
        mkRes inp [.getForecast, .getIcon (pyStr ic)] .httpError [] []) ∨
    (∃ st c, pyStr ic ++ ".png" ∉ inp.cacheFiles ∧
      inp.iconFetch = .response st c ∧ st ≠ 200 ∧
      iconAndNotify inp m ic =
        notifyStep inp [.getForecast, .getIcon (pyStr ic)]
          ["Failed to download icon: " ++ c] [] m none) ∨
    (∃ c, pyStr ic ++ ".png" ∉ inp.cacheFiles ∧
      inp.iconFetch = .response 200 c ∧
      iconAndNotify inp m ic =
        notifyStep inp [.getForecast, .getIcon (pyStr ic)] [] [pyStr ic ++ ".png"]
          m (some (pyStr ic ++ ".png"))) := by
  by_cases hc : pyStr ic ++ ".png" ∈ inp.cacheFiles
  · exact Or.inl ⟨hc, by unfold iconAndNotify; rw [if_pos hc]⟩
  · rcases hi : inp.iconFetch with _ | ⟨st, c⟩
    · exact Or.inr (Or.inl ⟨hc, rfl, by unfold iconAndNotify; rw [if_neg hc, hi]⟩)
    · by_cases hst : st = 200
      · subst hst
        refine Or.inr (Or.inr (Or.inr ⟨c, hc, rfl, ?_⟩))
        unfold iconAndNotify
        rw [if_neg hc, hi]
        simp
      · refine Or.inr (Or.inr (Or.inl ⟨st, c, hc, rfl, hst, ?_⟩))
        unfold iconAndNotify
        rw [if_neg hc, hi]
        simp [hst]

/-- The four ways a whole run can go: missing secret, fatal forecast fetch,
exception while computing the message, or the icon/notification tail. -/
lemma run_cases (inp : RunInput) :
    (∃ msg, secretsCheck inp.env = some msg ∧
      run inp = mkRes inp [] (.exitCode 1) [msg] []) ∨
    (secretsCheck inp.env = none ∧ fetchFails inp.forecastFetch = true ∧
      run inp = mkRes inp [.getForecast] .httpError [] []) ∨
    (∃ body e, secretsCheck inp.env = none ∧ forecastBodyOf inp = some body ∧
      computeMessage (selected body.hourly inp.minute) = .error e ∧
      run inp = mkRes inp [.getForecast] (errOutcome e) [] []) ∨
    (∃ m ic, messageStep inp = some (m, ic) ∧
      run inp = iconAndNotify inp m ic) := by
  rcases hsec : secretsCheck inp.env with _ | msg
  · rcases hf : inp.forecastFetch with _ | ⟨st, body⟩
    · exact Or.inr (Or.inl ⟨rfl, by simp [fetchFails], by simp [run, hsec, hf]⟩)
    · by_cases hst : 400 ≤ st
      · exact Or.inr (Or.inl ⟨rfl, by simp [fetchFails, hst],
          by simp [run, hsec, hf, hst]⟩)
      · rcases hcm : computeMessage (selected body.hourly inp.minute) with e | mi
        · refine Or.inr (Or.inr (Or.inl ⟨body, e, rfl, ?_, hcm, ?_⟩))
          · simp [forecastBodyOf, hf, hst]
          · simp [run, hsec, hf, hst, hcm]
        · obtain ⟨m, ic⟩ := mi
          have hmsg : messageStep inp = some (m, ic) := by
            simp [messageStep, hsec, hf, hst, hcm]
          exact Or.inr (Or.inr (Or.inr ⟨m, ic, hmsg, run_reaches_icon inp m ic hmsg⟩))
  · exact Or.inl ⟨msg, rfl, run_exit1 inp msg hsec⟩

/-- A parsed forecast body means the forecast fetch was not fatal. -/
lemma forecastBodyOf_some_not_fail (inp : RunInput) (body : ForecastBody)
    (h : forecastBodyOf inp = some body) :
    fetchFails inp.forecastFetch = false := by
  unfold forecastBodyOf at h
  rcases hf : inp.forecastFetch with _ | ⟨st, b⟩
  · rw [hf] at h; simp at h
  · rw [hf] at h
    by_cases hst : 400 ≤ st
    · simp [hst] at h
    · simp [fetchFails, hst]

/-- Decompose a settled message: all secrets were present, the forecast
fetch survived `raise_for_status`, and the scan returned this message. -/
lemma messageStep_parts (inp : RunInput) (m : String) (ic : Option String)
    (h : messageStep inp = some (m, ic)) :
    secretsCheck inp.env = none ∧ ∃ body, forecastBodyOf inp = some body ∧
      computeMessage (selected body.hourly inp.minute) = .ok (m, ic) := by
  unfold messageStep at h
  rcases hsec : secretsCheck inp.env with _ | msg
  · rw [hsec] at h
    rcases hf : inp.forecastFetch with _ | ⟨st, body⟩
    · rw [hf] at h; simp at h
    · rw [hf] at h
      by_cases hst : 400 ≤ st
      · simp [hst] at h
      · simp only [hst, if_false] at h
        refine ⟨rfl, body, by simp [forecastBodyOf, hf, hst], ?_⟩
        rcases hcm : computeMessage (selected body.hourly inp.minute) with e | mi
        · rw [hcm] at h; simp at h
        · rw [hcm] at h; simp at h; rw [h]
  · rw [hsec] at h; simp at h

/-- After the message is settled, the run is either the fatal icon
transport exception or a notification step whose leading calls are the
forecast GET and possibly one icon GET. -/
lemma run_tail_spec (inp : RunInput) (m : String) (ic : Option String)
    (hmsg : messageStep inp = some (m, ic)) :
    (run inp = mkRes inp [.getForecast, .getIcon (pyStr ic)] .httpError [] []) ∨
    ∃ pre logs written ipath, run inp = notifyStep inp pre logs written m ipath ∧
      (pre = [.getForecast] ∨ pre = [.getForecast, .getIcon (pyStr ic)]) := by
  rw [run_reaches_icon inp m ic hmsg]
  rcases iconAndNotify_cases inp m ic with ⟨_, heq⟩ | ⟨_, _, heq⟩ |
    ⟨st, c, _, _, _, heq⟩ | ⟨c, _, _, heq⟩
  · exact Or.inr ⟨_, _, _, _, heq, Or.inl rfl⟩
  · exact Or.inl heq
  · exact Or.inr ⟨_, _, _, _, heq, Or.inr rfl⟩
  · exact Or.inr ⟨_, _, _, _, heq, Or.inr rfl⟩

/-- C7: a fatal forecast fetch (non-success status or transport failure)
terminates the run with an error before any notification POST is made; a
fatal notification POST terminates the run with an error; and no run issues
the forecast GET or the notification POST more than once (no retry). -/
theorem fetch_errors_fatal_no_retry (inp : RunInput) :
    ((run inp).calls.count HttpCall.getForecast ≤ 1 ∧
      (run inp).calls.countP isPost ≤ 1) ∧
    (secretsCheck inp.env = none → fetchFails inp.forecastFetch = true →
      (run inp).outcome = .httpError ∧ (run inp).calls = [.getForecast]) ∧
    (fetchFails inp.notifyFetch = true →
      ∀ m a, HttpCall.postNotify m a ∈ (run inp).calls →
        (run inp).outcome = .httpError) := by
  rcases run_cases inp with ⟨msg, hsec, hr⟩ | ⟨hsec, hff, hr⟩ |
    ⟨body, e, hsec, hfb, hcm, hr⟩ | ⟨m, ic, hmsg, hr⟩
  · refine ⟨⟨?_, ?_⟩, ?_, ?_⟩
    · simp [hr, mkRes]
    · simp [hr, mkRes]
    · intro h1; rw [hsec] at h1; simp at h1
    · intro _ m a hmem; rw [hr] at hmem; simp [mkRes] at hmem
  · refine ⟨⟨?_, ?_⟩, ?_, ?_⟩
    · simp [hr, mkRes]
    · simp [hr, mkRes, isPost]
    · exact fun _ _ => ⟨by simp [hr, mkRes], by simp [hr, mkRes]⟩
    · intro _ m a hmem
      rw [hr] at hmem
      simp [mkRes] at hmem
  · refine ⟨⟨?_, ?_⟩, ?_, ?_⟩
    · simp [hr, mkRes]
    · simp [hr, mkRes, isPost]
    · intro _ h2
      rw [forecastBodyOf_some_not_fail inp body hfb] at h2
      simp at h2
    · intro _ m a hmem
      rw [hr] at hmem
      simp [mkRes] at hmem
  · have hparts := messageStep_parts inp m ic hmsg
    obtain ⟨hsec, body, hfb, hcm⟩ := hparts
    have hnotfail : fetchFails inp.forecastFetch = false :=
      forecastBodyOf_some_not_fail inp body hfb
    rcases run_tail_spec inp m ic hmsg with htail | ⟨pre, logs, written, ipath, htail, hpre⟩
    · refine ⟨⟨?_, ?_⟩, ?_, ?_⟩
      · simp [htail, mkRes]
      · simp [htail, mkRes, isPost]
      · intro _ h2; rw [hnotfail] at h2; simp at h2
      · intro _ m2 a hmem
        rw [htail] at hmem
        simp [mkRes] at hmem
    · obtain ⟨hcalls, houtcome, _⟩ := notifyStep_spec inp pre logs written m ipath
      refine ⟨⟨?_, ?_⟩, ?_, ?_⟩
      · rw [htail, hcalls]
        rcases hpre with h | h <;> rw [h] <;> simp [List.count_cons, isPost]
      · rw [htail, hcalls]
        rcases hpre with h | h <;> rw [h] <;> simp [List.countP_cons, isPost]
      · intro _ h2; rw [hnotfail] at h2; simp at h2
      · intro hnf m2 a _
        rw [htail, houtcome, hnf]
        simp

/-- Witness for C7: with secrets present and a 500 from the forecast
provider, the run dies with an HTTP error after exactly the forecast GET. -/
theorem fetch_errors_fatal_no_retry_witness :
    (run ⟨exEnv, 5, true, [], .response 500 ⟨[]⟩, .response 200 "png",
        .response 200 ()⟩).outcome = .httpError ∧
    (run ⟨exEnv, 5, true, [], .response 500 ⟨[]⟩, .response 200 "png",
        .response 200 ()⟩).calls = [.getForecast] :=
  (fetch_errors_fatal_no_retry _).2.1 (by decide) (by decide)

/-! ### C2: one message, one POST -/

/-- A run whose forecast GET succeeds with an empty `hourly` array. -/
def emptyHourlyInput : RunInput :=
  ⟨exEnv, 5, true, [], .response 200 ⟨[]⟩, .response 200 "png", .response 200 ()⟩

/-- Counterexample to C2 as stated: the forecast fetch succeeds but the
`hourly` array is empty, so `next_hour[0]` raises IndexError and no
notification POST is made (zero messages are sent, not one). -/
theorem empty_hourly_aborts_before_post :
    fetchFails emptyHourlyInput.forecastFetch = false ∧
    (run emptyHourlyInput).outcome = .indexError ∧
    (run emptyHourlyInput).calls.countP isPost = 0 := by decide

/-- C2 (amended): when the forecast fetch succeeds, the message computation
succeeds, and an icon cache miss gets an HTTP response rather than a
transport exception, exactly one notification POST is made and it carries
the chosen message. -/
theorem one_post_when_pipeline_succeeds (inp : RunInput) (m : String)
    (ic : Option String)
    (hmsg : messageStep inp = some (m, ic))
    (hicon : pyStr ic ++ ".png" ∈ inp.cacheFiles ∨ inp.iconFetch ≠ Fetch.netError) :
    (run inp).calls.countP isPost = 1 ∧
    ∃ a, HttpCall.postNotify m a ∈ (run inp).calls := by
  rw [run_reaches_icon inp m ic hmsg]
  rcases iconAndNotify_cases inp m ic with ⟨hc, heq⟩ | ⟨hmiss, hnet, heq⟩ |
    ⟨st, c, hmiss, hic, hst, heq⟩ | ⟨c, hmiss, hic, heq⟩
  · obtain ⟨hcalls, _⟩ :=
      notifyStep_spec inp [.getForecast] [] [] m (some (pyStr ic ++ ".png"))
    rw [heq, hcalls]
    exact ⟨by simp [List.countP_cons, isPost], true, by simp⟩
  · rcases hicon with h | h
    · exact absurd h hmiss
    · exact absurd hnet h
  · obtain ⟨hcalls, _⟩ :=
      notifyStep_spec inp [.getForecast, .getIcon (pyStr ic)]
        ["Failed to download icon: " ++ c] [] m none
    rw [heq, hcalls]
    exact ⟨by simp [List.countP_cons, isPost], false, by simp⟩
  · obtain ⟨hcalls, _⟩ :=
      notifyStep_spec inp [.getForecast, .getIcon (pyStr ic)] [] [pyStr ic ++ ".png"]
        m (some (pyStr ic ++ ".png"))
    rw [heq, hcalls]
    exact ⟨by simp [List.countP_cons, isPost], true, by simp⟩

/-- Witness for C2 (amended): a clear forecast, an icon cache miss answered
with a 200, one POST carrying the no-rain message. -/
theorem one_post_when_pipeline_succeeds_witness :
    (run ⟨exEnv, 5, true, [], .response 200 ⟨[exClearEntry]⟩,
        .response 200 "png", .response 200 ()⟩).calls.countP isPost = 1 ∧
    ∃ a, HttpCall.postNotify "No rain in the next hour" a ∈
      (run ⟨exEnv, 5, true, [], .response 200 ⟨[exClearEntry]⟩,
          .response 200 "png", .response 200 ()⟩).calls :=
  one_post_when_pipeline_succeeds _ "No rain in the next hour" (some "01d")
    (by decide) (Or.inr (by decide))

/-! ### C6: icon fetch failure handling -/

/-- A run whose icon GET raises a transport exception on a cache miss. -/
def iconNetErrorInput : RunInput :=
  ⟨exEnv, 5, true, [], .response 200 ⟨[exClearEntry]⟩, .netError, .response 200 ()⟩

/-- Counterexample to C6 as stated: a transport-level failure of the icon
GET is NOT non-fatal — `requests.get(icon_url)` raising propagates, the run
dies with an HTTP error and the notification is never sent. -/
theorem icon_net_error_fatal_cex :
    iconNetErrorInput.iconFetch = .netError ∧
    (run iconNetErrorInput).outcome = .httpError ∧
    (run iconNetErrorInput).calls.countP isPost = 0 := by decide

/-- C6 (amended): on a cache miss, a non-success HTTP *status* on the icon
GET is non-fatal: the failure is logged, no icon file is written, and the
run proceeds to send the notification without an attachment.  (A
transport-level exception on the icon GET instead aborts the run.) -/
theorem icon_status_error_nonfatal (inp : RunInput) (m : String)
    (ic : Option String) (st : Nat) (content : String)
    (hmsg : messageStep inp = some (m, ic))
    (hmiss : pyStr ic ++ ".png" ∉ inp.cacheFiles)
    (hfetch : inp.iconFetch = .response st content)
    (hst : st ≠ 200) :
    (run inp).calls = [.getForecast, .getIcon (pyStr ic), .postNotify m false] ∧
    (run inp).errorLogs = ["Failed to download icon: " ++ content] ∧
    (run inp).filesWritten = [] := by
  rw [run_reaches_icon inp m ic hmsg]
  have heq : iconAndNotify inp m ic =
      notifyStep inp [.getForecast, .getIcon (pyStr ic)]
        ["Failed to download icon: " ++ content] [] m none := by
    unfold iconAndNotify
    rw [if_neg hmiss, hfetch]
    simp [hst]
  obtain ⟨hcalls, _, hlogs, hwritten, _, _⟩ :=
    notifyStep_spec inp [.getForecast, .getIcon (pyStr ic)]
      ["Failed to download icon: " ++ content] [] m none
  rw [heq]
  exact ⟨by rw [hcalls]; rfl, hlogs, hwritten⟩

/-- Witness for C6 (amended): a 404 on the icon GET still sends the
notification, without an attachment. -/
theorem icon_status_error_nonfatal_witness :
    (run ⟨exEnv, 5, true, [], .response 200 ⟨[exClearEntry]⟩,
        .response 404 "nf", .response 200 ()⟩).calls =
      [.getForecast, .getIcon "01d", .postNotify "No rain in the next hour" false] ∧
    (run ⟨exEnv, 5, true, [], .response 200 ⟨[exClearEntry]⟩,
        .response 404 "nf", .response 200 ()⟩).errorLogs =
      ["Failed to download icon: nf"] ∧
    (run ⟨exEnv, 5, true, [], .response 200 ⟨[exClearEntry]⟩,
        .response 404 "nf", .response 200 ()⟩).filesWritten = [] :=
  icon_status_error_nonfatal _ "No rain in the next hour" (some "01d") 404 "nf"
    (by decide) (by decide) rfl (by decide)

/-! ### C8: icon cache idempotence -/

/-- A cache hit skips the icon GET entirely and writes nothing. -/
lemma run_cached_no_fetch (inp : RunInput) (m : String) (ic : Option String)
    (hmsg : messageStep inp = some (m, ic))
    (hc : pyStr ic ++ ".png" ∈ inp.cacheFiles) :
    (run inp).calls = [.getForecast, .postNotify m true] ∧
    (run inp).filesWritten = [] := by
  rw [run_reaches_icon inp m ic hmsg]
  have heq : iconAndNotify inp m ic =
      notifyStep inp [.getForecast] [] [] m (some (pyStr ic ++ ".png")) := by
    unfold iconAndNotify
    rw [if_pos hc]
  obtain ⟨hcalls, _, _, hwritten, _, _⟩ :=
    notifyStep_spec inp [.getForecast] [] [] m (some (pyStr ic ++ ".png"))
  rw [heq]
  exact ⟨by rw [hcalls]; rfl, hwritten⟩

/-- A cache miss answered 200 downloads once and writes the cache file. -/
lemma run_miss_200 (inp : RunInput) (m : String) (ic : Option String)
    (c : String)
    (hmsg : messageStep inp = some (m, ic))
    (hmiss : pyStr ic ++ ".png" ∉ inp.cacheFiles)
    (hic : inp.iconFetch = .response 200 c) :
    (run inp).calls = [.getForecast, .getIcon (pyStr ic), .postNotify m true] ∧
    (run inp).filesWritten = [pyStr ic ++ ".png"] := by
  rw [run_reaches_icon inp m ic hmsg]
  have heq : iconAndNotify inp m ic =
      notifyStep inp [.getForecast, .getIcon (pyStr ic)] [] [pyStr ic ++ ".png"]
        m (some (pyStr ic ++ ".png")) := by
    unfold iconAndNotify
    rw [if_neg hmiss, hic]
    simp
  obtain ⟨hcalls, _, _, hwritten, _, _⟩ :=
    notifyStep_spec inp [.getForecast, .getIcon (pyStr ic)] [] [pyStr ic ++ ".png"]
      m (some (pyStr ic ++ ".png"))
  rw [heq]
  exact ⟨by rw [hcalls]; rfl, hwritten⟩

/-- C8: icon caching is idempotent — a cached icon is reused with no icon
GET and no write; cached files persist (never evicted or refreshed); a miss
answered 200 downloads exactly once and leaves the file cached, so a second
run resolving the same icon against the updated cache performs zero icon
GETs. -/
theorem icon_cache_idempotent (inp inp2 : RunInput) (m m2 : String)
    (ic : Option String)
    (hmsg : messageStep inp = some (m, ic)) :
    (pyStr ic ++ ".png" ∈ inp.cacheFiles →
      countIconGets (pyStr ic) (run inp).calls = 0 ∧
      (run inp).filesWritten = []) ∧
    (∀ f ∈ inp.cacheFiles, f ∈ cacheAfter inp) ∧
    (pyStr ic ++ ".png" ∉ inp.cacheFiles → ∀ c, inp.iconFetch = .response 200 c →
      countIconGets (pyStr ic) (run inp).calls = 1 ∧
      pyStr ic ++ ".png" ∈ cacheAfter inp) ∧
    (messageStep inp2 = some (m2, ic) → inp2.cacheFiles = cacheAfter inp →
      pyStr ic ++ ".png" ∉ inp.cacheFiles → ∀ c, inp.iconFetch = .response 200 c →
      countIconGets (pyStr ic) (run inp2).calls = 0) := by
  refine ⟨?_, ?_, ?_, ?_⟩
  · intro hc
    obtain ⟨hcalls, hwritten⟩ := run_cached_no_fetch inp m ic hmsg hc
    rw [hcalls, hwritten]
    exact ⟨by simp [countIconGets], rfl⟩
  · intro f hf
    simp only [cacheAfter, List.mem_append]
    exact Or.inl hf
  · intro hmiss c hic
    obtain ⟨hcalls, hwritten⟩ := run_miss_200 inp m ic c hmsg hmiss hic
    constructor
    · rw [hcalls]; simp [countIconGets]
    · simp [cacheAfter, hwritten]
  · intro hmsg2 hcf hmiss c hic
    obtain ⟨hcalls, hwritten⟩ := run_miss_200 inp m ic c hmsg hmiss hic
    have hc2 : pyStr ic ++ ".png" ∈ inp2.cacheFiles := by
      rw [hcf]
      simp [cacheAfter, hwritten]
    obtain ⟨hcalls2, _⟩ := run_cached_no_fetch inp2 m2 ic hmsg2 hc2
    rw [hcalls2]
    simp [countIconGets]

/-- First run for the C8 witness: empty cache, icon GET answered 200. -/
def cacheMissInput : RunInput :=
  ⟨exEnv, 5, true, [], .response 200 ⟨[exClearEntry]⟩, .response 200 "pngbytes",
    .response 200 ()⟩

/-- Second run for the C8 witness: cache already holds `01d.png`. -/
def cacheHitInput : RunInput :=
  ⟨exEnv, 5, true, ["01d.png"], .response 200 ⟨[exClearEntry]⟩,
    .response 200 "pngbytes", .response 200 ()⟩

/-- Witness for C8: the first run downloads `01d` once and caches it; a
second run over the updated cache downloads it zero times. -/
theorem icon_cache_idempotent_witness :
    countIconGets "01d" (run cacheMissInput).calls = 1 ∧
    "01d.png" ∈ cacheAfter cacheMissInput ∧
    countIconGets "01d" (run cacheHitInput).calls = 0 := by
  have h := icon_cache_idempotent cacheMissInput cacheHitInput
    "No rain in the next hour" "No rain in the next hour" (some "01d") (by decide)
  obtain ⟨-, -, h3, h4⟩ := h
  obtain ⟨h31, h32⟩ := h3 (by decide) "pngbytes" rfl
  exact ⟨h31, h32, h4 (by decide) (by decide) (by decide) "pngbytes" rfl⟩

/-! ### C9: empty `weather` arrays -/

/-- A run where a rainy first entry `break`s before the loop reaches the
second selected entry, whose `weather` array is empty. -/
def earlyBreakInput : RunInput :=
  ⟨exEnv, 20, true, [], .response 200 ⟨[exRainEntry, ⟨some []⟩]⟩,
    .response 200 "png", .response 200 ()⟩

/-- Counterexample to C9 as stated: an entry with `weather = []` IS among
the selected entries, yet the run succeeds and sends the notification,
because an earlier rainy entry `break`s out of the loop before the empty
entry is examined. -/
theorem early_rain_break_skips_empty_weather :
    (⟨some []⟩ : HourEntry) ∈ selected [exRainEntry, ⟨some []⟩] 20 ∧
    (run earlyBreakInput).outcome = .success ∧
    (run earlyBreakInput).calls.countP isPost = 1 := by decide

/-- The scan raises IndexError at the first examined entry whose `weather`
key maps to an empty array. -/
lemma scanHours_error_at (pre : List HourEntry) (e : HourEntry)
    (post : List HourEntry)
    (hpre : ∀ h ∈ pre, (firstWeather h).isSome ∧ entryRainy h = false)
    (he : e.weather = some []) :
    scanHours (pre ++ e :: post) = .error .indexError := by
  induction pre with
  | nil =>
    have hfw : firstWeather e = none := by simp [firstWeather, he]
    simp [scanHours, hfw]
  | cons h t ih =>
    obtain ⟨hfs, hnr⟩ := hpre h (List.mem_cons_self h t)
    obtain ⟨w, hw⟩ := Option.isSome_iff_exists.mp hfs
    have hcr : containsRain (w.main.getD "") = false := by
      simp only [entryRainy, hw] at hnr
      exact hnr
    have ht := ih fun x hx => hpre x (List.mem_cons_of_mem h hx)
    simp [scanHours, hw, hcr, ht]

/-- A scan exception propagates: the run dies after only the forecast GET. -/
lemma run_scan_error (inp : RunInput) (body : ForecastBody) (err : ScanErr)
    (hsec : secretsCheck inp.env = none)
    (hfb : forecastBodyOf inp = some body)
    (hcm : computeMessage (selected body.hourly inp.minute) = .error err) :
    run inp = mkRes inp [.getForecast] (errOutcome err) [] [] := by
  unfold forecastBodyOf at hfb
  rcases hf : inp.forecastFetch with _ | ⟨st, b⟩
  · rw [hf] at hfb; simp at hfb
  · rw [hf] at hfb
    by_cases hst : 400 ≤ st
    · simp [hst] at hfb
    · simp only [hst, if_false, Option.some.injEq] at hfb
      subst hfb
      simp [run, hsec, hf, hst, hcm]

/-- C9 (amended): when the scan actually reaches a selected entry whose
`weather` key maps to an empty array — every earlier selected entry
extracts a weather record and is not rainy — extracting the first weather
record raises IndexError and the run aborts with no notification POST; the
`[{}]` default applies only when the `weather` key is entirely absent
(`weather = some []` yields no record at all). -/
theorem reached_empty_weather_aborts (inp : RunInput) (body : ForecastBody)
    (pre : List HourEntry) (e : HourEntry) (post : List HourEntry)
    (hsec : secretsCheck inp.env = none)
    (hfb : forecastBodyOf inp = some body)
    (hsel : selected body.hourly inp.minute = pre ++ e :: post)
    (hpre : ∀ h ∈ pre, (firstWeather h).isSome ∧ entryRainy h = false)
    (he : e.weather = some []) :
    (run inp).outcome = .indexError ∧
    (run inp).calls.countP isPost = 0 ∧
    firstWeather ⟨none⟩ = some emptyWeather ∧
    firstWeather ⟨some []⟩ = none := by
  have hscan : scanHours (pre ++ e :: post) = .error .indexError :=
    scanHours_error_at pre e post hpre he
  have hcm : computeMessage (selected body.hourly inp.minute) =
      .error .indexError := by
    rw [hsel]
    unfold computeMessage
    rw [hscan]
  rw [run_scan_error inp body .indexError hsec hfb hcm]
  exact ⟨rfl, rfl, rfl, rfl⟩

/-- Witness for C9 (amended): a clear first entry followed by an entry with
`weather = []` at minute 20; the run dies with IndexError, no POST. -/
theorem reached_empty_weather_aborts_witness :
    (run ⟨exEnv, 20, true, [], .response 200 ⟨[exClearEntry, ⟨some []⟩]⟩,
        .response 200 "png", .response 200 ()⟩).outcome = .indexError ∧
    (run ⟨exEnv, 20, true, [], .response 200 ⟨[exClearEntry, ⟨some []⟩]⟩,
        .response 200 "png", .response 200 ()⟩).calls.countP isPost = 0 ∧
    firstWeather ⟨none⟩ = some emptyWeather ∧
    firstWeather ⟨some []⟩ = none :=
  reached_empty_weather_aborts _ ⟨[exClearEntry, ⟨some []⟩]⟩ [exClearEntry]
    ⟨some []⟩ [] (by decide) rfl (by decide) (by decide) rfl

/-! ### C10: cache directory creation precedes the secret checks -/

/-- C10: every run — the exit-1 runs for a missing secret included — leaves
the cache directory existing, creating it exactly when it was missing; a
missing-secret run exits 1 having written no files and made no HTTP
calls. -/
theorem cache_dir_exists_after_every_run (inp : RunInput) :
    (run inp).dirExistsAfter = true ∧
    (run inp).dirCreated = !inp.cacheDirExists ∧
    ((inp.env.openweather_api_key = none ∨ inp.env.pushover_api_key = none ∨
      inp.env.pushover_user_key = none) →
      (run inp).outcome = .exitCode 1 ∧ (run inp).filesWritten = [] ∧
      (run inp).calls = []) := by
  have hfields : (run inp).dirExistsAfter = true ∧
      (run inp).dirCreated = !inp.cacheDirExists := by
    rcases run_cases inp with ⟨msg, _, hr⟩ | ⟨_, _, hr⟩ |
      ⟨b, e2, _, _, _, hr⟩ | ⟨m, ic, hmsg, hr⟩
    · exact ⟨by rw [hr]; rfl, by rw [hr]; rfl⟩
    · exact ⟨by rw [hr]; rfl, by rw [hr]; rfl⟩
    · exact ⟨by rw [hr]; rfl, by rw [hr]; rfl⟩
    · rcases run_tail_spec inp m ic hmsg with ht | ⟨pre, logs, written, ipath, ht, _⟩
      · exact ⟨by rw [ht]; rfl, by rw [ht]; rfl⟩
      · obtain ⟨_, _, _, _, hdc, hdea⟩ := notifyStep_spec inp pre logs written m ipath
        exact ⟨by rw [ht]; exact hdea, by rw [ht]; exact hdc⟩
  refine ⟨hfields.1, hfields.2, fun h => ?_⟩
  obtain ⟨name, hmem, hsc⟩ := secretsCheck_missing inp.env h
  rw [run_exit1 inp _ hsc]
  exact ⟨rfl, rfl, rfl⟩

/-- Witness for C10: a run missing the notification token, launched with no
cache directory, still ends with the directory existing. -/
theorem cache_dir_exists_after_every_run_witness :
    (run ⟨⟨some "ow", none, some "pu"⟩, 30, false, [], .netError, .netError,
        .netError⟩).dirExistsAfter = true ∧
    (run ⟨⟨some "ow", none, some "pu"⟩, 30, false, [], .netError, .netError,
        .netError⟩).dirCreated = true ∧
    (run ⟨⟨some "ow", none, some "pu"⟩, 30, false, [], .netError, .netError,
        .netError⟩).outcome = .exitCode 1 ∧
    (run ⟨⟨some "ow", none, some "pu"⟩, 30, false, [], .netError, .netError,
        .netError⟩).filesWritten = [] ∧
    (run ⟨⟨some "ow", none, some "pu"⟩, 30, false, [], .netError, .netError,
        .netError⟩).calls = [] := by
  have h := cache_dir_exists_after_every_run
    ⟨⟨some "ow", none, some "pu"⟩, 30, false, [], .netError, .netError, .netError⟩
  exact ⟨h.1, h.2.1, h.2.2 (Or.inr (Or.inl rfl))⟩

end RainAlert
